import Mathlib

/-!
Verification of the ipam-api repository: a shallow embedding of the
policy matcher, the HTTP request pipeline, the address state manager and
the link-layer announcement builder, together with theorems settling the
specification claims.

IP addresses are modelled as byte lists (length 4 for plain IPv4, length
16 for IPv6 and IPv4-in-IPv6), following Go's `net` package, whose
`IP.Mask`, `IP.Equal`, `IP.To4`, `CIDRMask` and `IPMask.String`/`Size`
functions are reproduced here byte for byte.
-/

namespace IpamApi

/-- The 12-byte marker that prefixes an IPv4 address embedded in a
16-byte IPv6 form (Go's `v4InV6` constant: ten zero bytes then ff ff). -/
def v4inV6 : List Nat := [0, 0, 0, 0, 0, 0, 0, 0, 0, 0, 255, 255]

/-- Go's `allFF`: every byte of the slice is 0xff. -/
def allFF (m : List Nat) : Bool := m.all (fun b => b == 255)

/-- Go's `net.IP.Mask`: apply a mask to an address, reconciling 4-byte
and 16-byte forms; a length mismatch yields Go's nil, modelled as `[]`. -/
def ipMask (ip mask : List Nat) : List Nat :=
  let mask := if mask.length = 16 ∧ ip.length = 4 ∧ allFF (mask.take 12) then
    mask.drop 12 else mask
  let ip := if mask.length = 4 ∧ ip.length = 16 ∧ ip.take 12 = v4inV6 then
    ip.drop 12 else ip
  if ip.length = mask.length then List.zipWith (fun a b => a &&& b) ip mask
  else []

/-- Go's `net.IP.Equal`: byte equality up to the IPv4-in-IPv6 embedding. -/
def ipEqual (a b : List Nat) : Bool :=
  if a.length = b.length then a == b
  else if a.length = 4 ∧ b.length = 16 then
    (b.take 12 == v4inV6) && (a == b.drop 12)
  else if a.length = 16 ∧ b.length = 4 then
    (a.take 12 == v4inV6) && (b == a.drop 12)
  else false

/-- Go's `net.IP.To4`: the 4-byte form of an address, `none` when the
address is not IPv4-representable. -/
def ipTo4 (ip : List Nat) : Option (List Nat) :=
  if ip.length = 4 then some ip
  else if ip.length = 16 ∧ ip.take 12 = v4inV6 then some (ip.drop 12)
  else none

/-- One byte of Go's `net.CIDRMask`: byte `idx` of a mask with `ones`
leading one bits. -/
def cidrMaskByte (ones idx : Nat) : Nat :=
  if 8 * (idx + 1) ≤ ones then 255
  else if ones ≤ 8 * idx then 0
  else (255 * 2 ^ (8 * (idx + 1) - ones)) % 256

/-- Go's `net.CIDRMask ones bits` as a byte list. -/
def cidrMask (ones bits : Nat) : List Nat :=
  (List.range (bits / 8)).map (cidrMaskByte ones)

/-- Lower-case hex digit for a value below 16. -/
def hexDigit (n : Nat) : Char :=
  if n < 10 then Char.ofNat (48 + n) else Char.ofNat (87 + n)

/-- Two-digit lower-case hex encoding of one byte. -/
def hexByte (b : Nat) : List Char := [hexDigit (b / 16 % 16), hexDigit (b % 16)]

/-- Go's `net.IPMask.String`: hex encoding, or the nil placeholder. -/
def maskString (m : List Nat) : String :=
  if m.isEmpty then "<nil>"
  else String.mk (m.foldr (fun b acc => hexByte b ++ acc) [])

/-- Leading-ones count of a single canonical mask byte (`none` when the
byte is not of the form 1^k 0^(8-k)). -/
def byteLeadingOnes : Nat → Option Nat
  | 0 => some 0
  | 128 => some 1
  | 192 => some 2
  | 224 => some 3
  | 240 => some 4
  | 248 => some 5
  | 252 => some 6
  | 254 => some 7
  | 255 => some 8
  | _ => none

/-- Go's `simpleMaskLength`: number of leading one bits of a canonical
mask, `none` when the mask is not of the canonical ones-then-zeros form. -/
def simpleMaskLength : List Nat → Option Nat
  | [] => some 0
  | 255 :: rest => (simpleMaskLength rest).map (fun n => 8 + n)
  | v :: rest =>
    match byteLeadingOnes v with
    | none => none
    | some k => if rest.all (fun b => b == 0) then some k else none

/-- The ones component of Go's `net.IPMask.Size` (0 for a non-canonical
mask, as in Go). -/
def maskSizeOnes (m : List Nat) : Nat := (simpleMaskLength m).getD 0

/-! ### Regular expressions

Semantic model of the compiled Go `regexp.Regexp` values stored in a
policy. `matchList` is whole-list matching via Brzozowski derivatives;
`matchSub` is the semantics of Go's `Regexp.MatchString`, which reports
whether the string *contains* a match (it does not anchor the pattern). -/

/-- Regular-expression abstract syntax. -/
inductive Regex where
  | emp : Regex
  | eps : Regex
  | chr : Char → Regex
  | alt : Regex → Regex → Regex
  | cat : Regex → Regex → Regex
  | star : Regex → Regex
deriving DecidableEq, Repr

/-- Whether a regex accepts the empty word. -/
def Regex.nullable : Regex → Bool
  | .emp => false
  | .eps => true
  | .chr _ => false
  | .alt r s => r.nullable || s.nullable
  | .cat r s => r.nullable && s.nullable
  | .star _ => true

/-- Brzozowski derivative of a regex by one character. -/
def Regex.deriv : Regex → Char → Regex
  | .emp, _ => .emp
  | .eps, _ => .emp
  | .chr c, d => if c = d then .eps else .emp
  | .alt r s, d => .alt (r.deriv d) (s.deriv d)
  | .cat r s, d =>
    if r.nullable then .alt (.cat (r.deriv d) s) (s.deriv d)
    else .cat (r.deriv d) s
  | .star r, d => .cat (r.deriv d) (.star r)

/-- Whole-list matching: the regex accepts exactly this character list. -/
def Regex.matchList (r : Regex) (cs : List Char) : Bool :=
  (cs.foldl Regex.deriv r).nullable

/-- Full-string matching: the regex accepts the whole string. -/
def Regex.matchFull (r : Regex) (s : String) : Bool :=
  r.matchList s.data

/-- Go's `Regexp.MatchString`: some contiguous substring is accepted. -/
def Regex.matchSub (r : Regex) (s : String) : Bool :=
  s.data.tails.any fun t => t.inits.any fun p => r.matchList p

/-! ### Policy data model (config.go) -/

/-- A parsed CIDR value: the IP bytes together with the mask bytes.
Models both `net.IPNet` (the `IPNetwork` wrapper of a policy, where the
IP is the masked network address) and `netlink.Addr` as produced by
`netlink.ParseAddr` (where the IP is the full host address). -/
structure CIDRAddress where
  ip : List Nat
  mask : List Nat
deriving DecidableEq, Repr

/-- An address policy from the configuration: an IP network plus a
compiled interface-name regular expression. -/
structure AddressPolicy where
  ipNetwork : CIDRAddress
  interfaceNameRegex : Regex
deriving DecidableEq, Repr

/-- `AddressPolicy.Allows` from config.go: the interface name matches
the policy regex (Go substring semantics), the textual masks coincide,
and the two IPs masked with their own masks are equal. -/
def AddressPolicy.Allows (ap : AddressPolicy) (interfaceName : String)
    (address : CIDRAddress) : Bool :=
  ap.interfaceNameRegex.matchSub interfaceName &&
  (maskString ap.ipNetwork.mask == maskString address.mask) &&
  ipEqual (ipMask ap.ipNetwork.ip ap.ipNetwork.mask)
    (ipMask address.ip address.mask)

/-- The policy loop of `handleRequest` (server.go): `policyPassed` is set
iff some policy in the list allows the pair. -/
def policyCheck (policy : List AddressPolicy) (interfaceName : String)
    (address : CIDRAddress) : Bool :=
  policy.any fun p => p.Allows interfaceName address

/-- Spec-side variant of `AddressPolicy.Allows`, following the spec's
words: the pattern must *fully* match the interface name (whole string).
Used to compare the specified behaviour with the implemented one. -/
def AddressPolicy.AllowsFullMatchSpec (ap : AddressPolicy)
    (interfaceName : String) (address : CIDRAddress) : Bool :=
  ap.interfaceNameRegex.matchFull interfaceName &&
  (maskString ap.ipNetwork.mask == maskString address.mask) &&
  ipEqual (ipMask ap.ipNetwork.ip ap.ipNetwork.mask)
    (ipMask address.ip address.mask)

/-! ### Request pipeline (server.go, `handleRequest`)

External collaborators — the JSON decoder, `netlink.ParseAddr`,
`netlink.LinkByName` and the two mutation entry points — are passed as
function arguments; the pipeline itself is embedded step by step. -/

/-- The decoded JSON request body. -/
structure RequestData where
  address : String
  interfaceName : String
deriving DecidableEq, Repr

/-- The parts of an incoming HTTP request the handler inspects. A `none`
body models Go's nil `Request.Body`. -/
structure HttpRequest where
  path : String
  method : String
  contentType : String
  body : Option String
deriving DecidableEq, Repr

/-- An HTTP outcome: status code plus response body (with the trailing
newline that `http.Error` and the success `Fprintf` calls write). -/
structure HttpResponse where
  status : Nat
  body : String
deriving DecidableEq, Repr

/-- A resolved network interface: name, OS index and hardware address. -/
structure Link where
  name : String
  index : Nat
  mac : List Nat
deriving DecidableEq, Repr

/-- The path switch at the top of `handleRequest`. -/
def requestActionOf : String → Option String
  | "/add" => some "add"
  | "/delete" => some "delete"
  | _ => none

/-- `handleRequest` from server.go: the linear validation pipeline with
its closed set of outcomes. -/
def handleRequest (decode : String → Except String RequestData)
    (parseAddress : String → Except String CIDRAddress)
    (linkByName : String → Except String Link)
    (addAddress : Link → CIDRAddress → Except String Unit)
    (deleteAddress : Link → CIDRAddress → Except String Unit)
    (policy : List AddressPolicy) (r : HttpRequest) : HttpResponse :=
  match requestActionOf r.path with
  | none => ⟨404, "Path not found\n"⟩
  | some requestAction =>
    if r.method ≠ "POST" then ⟨405, "Method Not Allowed\n"⟩
    else match r.body with
    | none => ⟨400, "Request body is empty\n"⟩
    | some bodyStr =>
      if r.contentType ≠ "application/json" then
        ⟨400, "Invalid content type (expected \"application/json\")\n"⟩
      else match decode bodyStr with
      | .error e => ⟨400, "Failed to parse request body: " ++ e ++ "\n"⟩
      | .ok rd =>
        if rd.address = "" then
          ⟨400, "Address (\"address\") is missing in request\n"⟩
        else if rd.interfaceName = "" then
          ⟨400, "Interface name (\"interface_name\") is missing in request\n"⟩
        else match parseAddress rd.address with
        | .error e => ⟨500, "Failed to parse cidr address: " ++ e ++ "\n"⟩
        | .ok address =>
          if ¬ policyCheck policy rd.interfaceName address then
            ⟨403, "Rejected cidr address for interface, because no matching policy was found\n"⟩
          else match linkByName rd.interfaceName with
          | .error e => ⟨500, "Failed to retreive interface: " ++ e ++ "\n"⟩
          | .ok link =>
            match requestAction with
            | "add" =>
              match addAddress link address with
              | .error e =>
                ⟨500, "Failed to add cidr address to interface: " ++ e ++ "\n"⟩
              | .ok _ => ⟨200, "Successfully added address to interface\n"⟩
            | "delete" =>
              match deleteAddress link address with
              | .error e =>
                ⟨500, "Failed to delete cidr address from interface: " ++ e ++ "\n"⟩
              | .ok _ => ⟨200, "Successfully deleted address from interface\n"⟩
            | _ => ⟨200, ""⟩

/-! ### Address state manager (ipam.go)

The OS address table is modelled as an explicit state: the set of
(link index, address) bindings plus the behaviour of the fallible OS
calls (`netlink.AddrList`, `AddrAdd`, `AddrDel`) and of the raw-socket
announcement. Each operation of ipam.go is embedded as a state
transformer returning the new state together with its `error` result. -/

/-- `netlink.Addr.Equal`: IPs equal up to the IPv4-in-IPv6 embedding and
equal mask sizes (the label is ignored). -/
def addrEqual (a x : CIDRAddress) : Bool :=
  ipEqual a.ip x.ip && (maskSizeOnes a.mask == maskSizeOnes x.mask)

/-- The modelled OS network state: current address bindings and the
outcome of each external call. -/
structure OSState where
  addrs : List (Nat × CIDRAddress)
  listFails : Bool
  addFails : Bool
  delFails : Bool
  advertiseError : Option String
deriving DecidableEq, Repr

/-- `netlink.AddrList` on one link: all addresses bound to its index. -/
def addrList (st : OSState) (link : Link) : Except String (List CIDRAddress) :=
  if st.listFails then .error "netlink: list failed"
  else .ok ((st.addrs.filter fun e => e.1 == link.index).map Prod.snd)

/-- `netlink.AddrAdd`: bind the address to the link. -/
def addrAdd (st : OSState) (link : Link) (address : CIDRAddress) :
    Except String OSState :=
  if st.addFails then .error "netlink: add failed"
  else .ok { st with addrs := (link.index, address) :: st.addrs }

/-- `netlink.AddrDel`: remove the address binding from the link. -/
def addrDel (st : OSState) (link : Link) (address : CIDRAddress) :
    Except String OSState :=
  if st.delFails then .error "netlink: delete failed"
  else
    let kept := st.addrs.filter (fun e => !(e.1 == link.index && addrEqual e.2 address))
    .ok { st with addrs := kept }

/-- `AddressExists` from ipam.go: list the link's addresses and scan for
one equal (in the `netlink.Addr.Equal` sense) to the given address. -/
def AddressExists (st : OSState) (link : Link) (address : CIDRAddress) :
    Except String Bool :=
  match addrList st link with
  | .error e => .error e
  | .ok existing => .ok (existing.any fun ea => addrEqual ea address)

/-- The raw-socket announcement transmission of `AdvertiseAddress`:
succeeds or fails according to the modelled socket behaviour, never
changing the address table. -/
def AdvertiseAddress (st : OSState) : Except String Unit :=
  match st.advertiseError with
  | some e => .error e
  | none => .ok ()

/-- `AddAddress` from ipam.go: check existence, mutate if absent, then
announce; an announcement failure is returned but the mutation stays. -/
def AddAddress (st : OSState) (link : Link) (address : CIDRAddress) :
    OSState × Except String Unit :=
  match AddressExists st link address with
  | .error e => (st, .error e)
  | .ok true => (st, .ok ())
  | .ok false =>
    match addrAdd st link address with
    | .error e => (st, .error e)
    | .ok st1 =>
      match AdvertiseAddress st1 with
      | .error e => (st1, .error e)
      | .ok _ => (st1, .ok ())

/-- `DeleteAddress` from ipam.go: check existence, succeed as a no-op if
absent, otherwise remove the binding. -/
def DeleteAddress (st : OSState) (link : Link) (address : CIDRAddress) :
    OSState × Except String Unit :=
  match AddressExists st link address with
  | .error e => (st, .error e)
  | .ok false => (st, .ok ())
  | .ok true =>
    match addrDel st link address with
    | .error e => (st, .error e)
    | .ok st1 => (st1, .ok ())

/-! ### Link-layer announcer (ipam.go, `AdvertiseAddress`)

The frame construction of lines 90-158 of ipam.go, before gopacket
serialisation. Numeric field values are the gopacket constants:
EthernetTypeARP = 0x0806, EthernetTypeIPv4 = 0x0800, EthernetTypeIPv6 =
0x86dd, LinkTypeEthernet = 1, ARPRequest = 1, IPProtocolICMPv6 = 58,
ICMPv6TypeNeighborAdvertisement = 136, ICMPv6OptTargetAddress = 2 (the
NDP target link-layer address option type). -/

/-- The Ethernet broadcast hardware address ff:ff:ff:ff:ff:ff. -/
def broadcastMAC : List Nat := [255, 255, 255, 255, 255, 255]

/-- The IPv6 all-nodes multicast hardware address 33:33:00:00:00:01. -/
def allNodesMAC : List Nat := [0x33, 0x33, 0, 0, 0, 1]

/-- Go's `net.IPv6linklocalallnodes` (ff02::1). -/
def ipv6AllNodes : List Nat :=
  [0xff, 0x02, 0, 0, 0, 0, 0, 0, 0, 0, 0, 0, 0, 0, 0, 0x01]

/-- A `layers.Ethernet` header. -/
structure EthernetHeader where
  srcMAC : List Nat
  dstMAC : List Nat
  etherType : Nat
deriving DecidableEq, Repr

/-- A `layers.ARP` packet. -/
structure ARPPacket where
  addrType : Nat
  protocol : Nat
  hwAddressSize : Nat
  protAddressSize : Nat
  operation : Nat
  sourceHwAddress : List Nat
  sourceProtAddress : List Nat
  dstHwAddress : List Nat
  dstProtAddress : List Nat
deriving DecidableEq, Repr

/-- A `layers.IPv6` header (the fields the announcer sets). -/
structure IPv6Header where
  version : Nat
  srcIP : List Nat
  dstIP : List Nat
  nextHeader : Nat
  hopLimit : Nat
deriving DecidableEq, Repr

/-- A `layers.ICMPv6Option`. -/
structure ICMPv6Option where
  optType : Nat
  data : List Nat
deriving DecidableEq, Repr

/-- A `layers.ICMPv6NeighborAdvertisement`. -/
structure NeighborAdvertisement where
  flags : Nat
  targetAddress : List Nat
  options : List ICMPv6Option
deriving DecidableEq, Repr

/-- The layer stack of one announcement frame: a gratuitous ARP frame
for IPv4 or an unsolicited neighbor advertisement for IPv6. -/
inductive Announcement where
  | arp (eth : EthernetHeader) (pkt : ARPPacket) : Announcement
  | ndp (eth : EthernetHeader) (ip6 : IPv6Header) (icmpType icmpCode : Nat)
      (na : NeighborAdvertisement) : Announcement
deriving DecidableEq, Repr

/-- The frame construction of `AdvertiseAddress` (ipam.go lines 90-158):
IPv4 addresses (those with a 4-byte form) get a gratuitous ARP request,
all others an unsolicited IPv6 neighbor advertisement. -/
def AdvertiseAddressFrame (link : Link) (address : CIDRAddress) :
    Announcement :=
  match ipTo4 address.ip with
  | some ip4 =>
    .arp ⟨link.mac, broadcastMAC, 0x0806⟩
      ⟨1, 0x0800, 6, 4, 1, link.mac, ip4, broadcastMAC, ip4⟩
  | none =>
    .ndp ⟨link.mac, allNodesMAC, 0x86dd⟩
      ⟨6, address.ip, ipv6AllNodes, 58, 255⟩ 136 0
      ⟨0x20, address.ip, [⟨2, link.mac⟩]⟩

/-! ### Helper lemmas about the address state manager -/

/-- `netlink.Addr.Equal` is reflexive. -/
theorem addrEqual_refl (a : CIDRAddress) : addrEqual a a = true := by
  simp [addrEqual, ipEqual]

/-- A successful existence check means the OS listing worked. -/
theorem listFails_of_AddressExists_ok {st : OSState} {l : Link}
    {a : CIDRAddress} {b : Bool} (h : AddressExists st l a = .ok b) :
    st.listFails = false := by
  cases hst : st.listFails with
  | false => rfl
  | true => simp [AddressExists, addrList, hst] at h

/-- After binding an address to a link, the existence check finds it. -/
theorem AddressExists_cons_self (st : OSState) (l : Link) (a : CIDRAddress)
    (h : st.listFails = false) :
    AddressExists { st with addrs := (l.index, a) :: st.addrs } l a =
      .ok true := by
  simp [AddressExists, addrList, List.filter_cons, h, addrEqual_refl]

/-- Scanning the address table after removing every binding of `a` on
link index `idx` finds no address equal to `a`. -/
theorem any_after_del (xs : List (Nat × CIDRAddress)) (idx : Nat)
    (a : CIDRAddress) :
    ((((xs.filter fun e => !(e.1 == idx && addrEqual e.2 a)).filter
      fun e => e.1 == idx).map Prod.snd).any fun ea => addrEqual ea a) =
      false := by
  simp
  intro c n hmem hn hor
  cases hor with
  | inl hl => exact absurd hn hl
  | inr hr => exact hr

/-- After removing every binding of `a` on the link, the existence check
reports the address absent. -/
theorem AddressExists_after_del (st : OSState) (l : Link) (a : CIDRAddress)
    (h : st.listFails = false) :
    AddressExists { st with addrs := st.addrs.filter (fun e => !(e.1 == l.index && addrEqual e.2 a)) } l a =
      .ok false := by
  simp only [AddressExists, addrList, h, Bool.false_eq_true, if_false]
  rw [any_after_del]

/-- The 4-byte form produced by `To4` denotes the same address under
Go's `IP.Equal`. -/
theorem ipEqual_of_ipTo4 {ip ip4 : List Nat} (h : ipTo4 ip = some ip4) :
    ipEqual ip4 ip = true := by
  unfold ipTo4 at h
  split_ifs at h with h1 h2
  · cases h
    simp [ipEqual]
  · cases h
    obtain ⟨hl, hp⟩ := h2
    simp [ipEqual, hl, hp, List.length_drop]

/-- `AddAddress` when the listing fails: the error propagates and the
state is untouched. -/
theorem AddAddress_of_error {st : OSState} {l : Link} {a : CIDRAddress}
    {e : String} (hex : AddressExists st l a = .error e) :
    AddAddress st l a = (st, .error e) := by
  simp [AddAddress, hex]

/-- `AddAddress` when the address already exists: success, no mutation. -/
theorem AddAddress_of_exists {st : OSState} {l : Link} {a : CIDRAddress}
    (hex : AddressExists st l a = .ok true) :
    AddAddress st l a = (st, .ok ()) := by
  simp [AddAddress, hex]

/-- `AddAddress` when the OS mutation fails: the error propagates and
the state is untouched. -/
theorem AddAddress_of_addFails {st : OSState} {l : Link} {a : CIDRAddress}
    (hex : AddressExists st l a = .ok false) (haf : st.addFails = true) :
    AddAddress st l a = (st, .error "netlink: add failed") := by
  simp [AddAddress, hex, addrAdd, haf]

/-- `AddAddress` when the mutation succeeds but the announcement fails:
the announcement error is returned and the new binding stays. -/
theorem AddAddress_of_advFail {st : OSState} {l : Link} {a : CIDRAddress}
    {e : String} (hex : AddressExists st l a = .ok false)
    (haf : st.addFails = false) (hadv : st.advertiseError = some e) :
    AddAddress st l a =
      ({ st with addrs := (l.index, a) :: st.addrs }, .error e) := by
  simp [AddAddress, hex, addrAdd, haf, AdvertiseAddress, hadv]

/-- `AddAddress` when both mutation and announcement succeed. -/
theorem AddAddress_of_added {st : OSState} {l : Link} {a : CIDRAddress}
    (hex : AddressExists st l a = .ok false)
    (haf : st.addFails = false) (hadv : st.advertiseError = none) :
    AddAddress st l a =
      ({ st with addrs := (l.index, a) :: st.addrs }, .ok ()) := by
  simp [AddAddress, hex, addrAdd, haf, AdvertiseAddress, hadv]

/-- `DeleteAddress` when the address is absent: success, no mutation. -/
theorem DeleteAddress_of_absent {st : OSState} {l : Link} {a : CIDRAddress}
    (hex : AddressExists st l a = .ok false) :
    DeleteAddress st l a = (st, .ok ()) := by
  simp [DeleteAddress, hex]

/-- `DeleteAddress` when the address is present and the OS removal
succeeds. -/
theorem DeleteAddress_of_present {st : OSState} {l : Link} {a : CIDRAddress}
    (hex : AddressExists st l a = .ok true) (hdf : st.delFails = false) :
    DeleteAddress st l a =
      ({ st with addrs := st.addrs.filter (fun e => !(e.1 == l.index && addrEqual e.2 a)) },
        .ok ()) := by
  simp [DeleteAddress, hex, addrDel, hdf]

/-- A successful `AddAddress` leaves the address present on the link. -/
theorem AddAddress_ok_exists {st st1 : OSState} {l : Link}
    {a : CIDRAddress} (h : AddAddress st l a = (st1, .ok ())) :
    AddressExists st1 l a = .ok true := by
  cases hex : AddressExists st l a with
  | error e => rw [AddAddress_of_error hex] at h; simp at h
  | ok b =>
    have hlf : st.listFails = false := listFails_of_AddressExists_ok hex
    cases b with
    | true =>
      rw [AddAddress_of_exists hex] at h
      have h1 : st = st1 := congrArg Prod.fst h
      rw [← h1]
      exact hex
    | false =>
      cases haf : st.addFails with
      | true => rw [AddAddress_of_addFails hex haf] at h; simp at h
      | false =>
        cases hadv : st.advertiseError with
        | some e => rw [AddAddress_of_advFail hex haf hadv] at h; simp at h
        | none =>
          rw [AddAddress_of_added hex haf hadv] at h
          have h1 : { st with addrs := (l.index, a) :: st.addrs } = st1 :=
            congrArg Prod.fst h
          rw [← h1]
          exact AddressExists_cons_self st l a hlf

/-- A successful `DeleteAddress` leaves the address absent from the
link. -/
theorem DeleteAddress_ok_not_exists {st st1 : OSState} {l : Link}
    {a : CIDRAddress} (h : DeleteAddress st l a = (st1, .ok ())) :
    AddressExists st1 l a = .ok false := by
  cases hex : AddressExists st l a with
  | error e =>
    have hd : DeleteAddress st l a = (st, .error e) := by
      simp [DeleteAddress, hex]
    rw [hd] at h
    simp at h
  | ok b =>
    have hlf : st.listFails = false := listFails_of_AddressExists_ok hex
    cases b with
    | false =>
      rw [DeleteAddress_of_absent hex] at h
      have h1 : st = st1 := congrArg Prod.fst h
      rw [← h1]
      exact hex
    | true =>
      cases hdf : st.delFails with
      | true =>
        have hd : DeleteAddress st l a = (st, .error "netlink: delete failed") := by
          simp [DeleteAddress, hex, addrDel, hdf]
        rw [hd] at h
        simp at h
      | false =>
        rw [DeleteAddress_of_present hex hdf] at h
        have h1 : { st with addrs := st.addrs.filter (fun e => !(e.1 == l.index && addrEqual e.2 a)) } =
            st1 := congrArg Prod.fst h
        rw [← h1]
        exact AddressExists_after_del st l a hlf

/-! ### Concrete instances used by witnesses and the counterexample -/

/-- The unanchored pattern "lo" as compiled regex syntax. -/
def cRegexLo : Regex := .cat (.chr 'l') (.chr 'o')

/-- A policy for network 10.0.0.0/24 restricted by the pattern "lo". -/
def cPolicyLo : AddressPolicy := ⟨⟨[10, 0, 0, 0], cidrMask 24 32⟩, cRegexLo⟩

/-- The parsed request address 10.0.0.5/24 (16-byte IPv4-in-IPv6 IP with
a 4-byte mask, as `netlink.ParseAddr` produces). -/
def cAddrV4 : CIDRAddress := ⟨v4inV6 ++ [10, 0, 0, 5], cidrMask 24 32⟩

/-- The parsed IPv6 request address fd69:decd:7b66:8220::1/64. -/
def cAddrV6 : CIDRAddress :=
  ⟨[0xfd, 0x69, 0xde, 0xcd, 0x7b, 0x66, 0x82, 0x20, 0, 0, 0, 0, 0, 0, 0, 1],
    cidrMask 64 128⟩

/-- A policy whose network carries a /64 IPv6 mask. -/
def cPolicy64 : AddressPolicy :=
  ⟨⟨[0xfd, 0x69, 0xde, 0xcd, 0x7b, 0x66, 0x82, 0x20, 0, 0, 0, 0, 0, 0, 0, 0],
    cidrMask 64 128⟩, cRegexLo⟩

/-- An address whose mask is the /48 mask over the same network bytes. -/
def cAddr48 : CIDRAddress :=
  ⟨[0xfd, 0x69, 0xde, 0xcd, 0x7b, 0x66, 0x82, 0x20, 0, 0, 0, 0, 0, 0, 0, 1],
    cidrMask 48 128⟩

/-- A resolved interface used in witnesses. -/
def cLink : Link := ⟨"eth0", 3, [1, 2, 3, 4, 5, 6]⟩

/-- An OS state with no addresses and fully healthy collaborators. -/
def cState0 : OSState := ⟨[], false, false, false, none⟩

/-- The OS state after binding `cAddrV4` on `cLink`. -/
def cState1 : OSState := ⟨[(3, cAddrV4)], false, false, false, none⟩

/-- An OS state whose raw-socket announcement fails. -/
def cStateAdvFail : OSState := ⟨[], false, false, false, some "sendto: network is down"⟩

/-- A decoder used in pipeline witnesses. -/
def cDecode : String → Except String RequestData :=
  fun _ => .ok ⟨"10.0.0.5/24", "eth0"⟩

/-- An address parser that always fails, used in pipeline witnesses. -/
def cParseFail : String → Except String CIDRAddress :=
  fun _ => .error "invalid CIDR address: 10.0.0.500/24"

/-- A link resolver used in pipeline witnesses. -/
def cLinkByName : String → Except String Link := fun _ => .ok cLink

/-- A mutation stub used in pipeline witnesses. -/
def cMutate : Link → CIDRAddress → Except String Unit := fun _ _ => .ok ()

/-! ### Claim theorems -/

/-- C2: a POST request to /add that passed the path and method checks
and has no body is answered with status 400 and the exact body
"Request body is empty\n", for every decoder, parser, link resolver,
mutator and policy set — in particular the JSON-parse failure branch is
never reached. -/
theorem c2_empty_body_rejected
    (decode : String → Except String RequestData)
    (parseAddress : String → Except String CIDRAddress)
    (linkByName : String → Except String Link)
    (addAddress deleteAddress : Link → CIDRAddress → Except String Unit)
    (policy : List AddressPolicy) (r : HttpRequest)
    (hpath : r.path = "/add") (hmethod : r.method = "POST")
    (hbody : r.body = none) :
    handleRequest decode parseAddress linkByName addAddress deleteAddress
      policy r = ⟨400, "Request body is empty\n"⟩ := by
  obtain ⟨path, method, contentType, body⟩ := r
  simp only at hpath hmethod hbody
  subst hpath hmethod hbody
  rfl

/-- C2 witness: the theorem applied to a concrete bodyless request. -/
theorem c2_empty_body_rejected_witness :
    handleRequest cDecode cParseFail cLinkByName cMutate cMutate []
      ⟨"/add", "POST", "text/html", none⟩ =
      ⟨400, "Request body is empty\n"⟩ :=
  c2_empty_body_rejected cDecode cParseFail cLinkByName cMutate cMutate []
    ⟨"/add", "POST", "text/html", none⟩ rfl rfl rfl

/-- C7: once a request has passed path, method, body, content-type,
JSON-decoding and the two non-emptiness checks, a CIDR-parse failure
with detail `e` yields status 500 with body
"Failed to parse cidr address: " ++ e ++ "\n", for every policy set,
link resolver and mutator — the policy check, link resolution and
mutation are never evaluated, so the first failing step alone
determines the outcome. -/
theorem c7_cidr_parse_maps_to_500
    (decode : String → Except String RequestData)
    (parseAddress : String → Except String CIDRAddress)
    (linkByName : String → Except String Link)
    (addAddress deleteAddress : Link → CIDRAddress → Except String Unit)
    (policy : List AddressPolicy) (r : HttpRequest)
    (action bodyStr : String) (rd : RequestData) (e : String)
    (hact : requestActionOf r.path = some action)
    (hmethod : r.method = "POST")
    (hbody : r.body = some bodyStr)
    (hct : r.contentType = "application/json")
    (hdec : decode bodyStr = .ok rd)
    (haddr : rd.address ≠ "")
    (hifn : rd.interfaceName ≠ "")
    (hparse : parseAddress rd.address = .error e) :
    handleRequest decode parseAddress linkByName addAddress deleteAddress
      policy r = ⟨500, "Failed to parse cidr address: " ++ e ++ "\n"⟩ := by
  simp [handleRequest, hact, hmethod, hbody, hct, hdec, haddr, hifn, hparse]

/-- C7 witness: concrete request whose address fails to parse. -/
theorem c7_cidr_parse_maps_to_500_witness :
    handleRequest cDecode cParseFail cLinkByName cMutate cMutate [cPolicyLo]
      ⟨"/add", "POST", "application/json", some "{}"⟩ =
      ⟨500, "Failed to parse cidr address: invalid CIDR address: 10.0.0.500/24\n"⟩ :=
  c7_cidr_parse_maps_to_500 cDecode cParseFail cLinkByName cMutate cMutate
    [cPolicyLo] ⟨"/add", "POST", "application/json", some "{}"⟩
    "add" "{}" ⟨"10.0.0.5/24", "eth0"⟩ "invalid CIDR address: 10.0.0.500/24"
    rfl rfl rfl rfl rfl (by decide) (by decide) rfl

/-- C10: the content-type check is exact string equality with
"application/json"; any request reaching that step with any other
Content-Type value (including "application/json; charset=utf-8") is
answered with status 400 and the invalid-content-type body, for every
decoder — the body is never parsed. -/
theorem c10_content_type_exact_match
    (decode : String → Except String RequestData)
    (parseAddress : String → Except String CIDRAddress)
    (linkByName : String → Except String Link)
    (addAddress deleteAddress : Link → CIDRAddress → Except String Unit)
    (policy : List AddressPolicy) (r : HttpRequest)
    (action bodyStr : String)
    (hact : requestActionOf r.path = some action)
    (hmethod : r.method = "POST")
    (hbody : r.body = some bodyStr)
    (hct : r.contentType ≠ "application/json") :
    handleRequest decode parseAddress linkByName addAddress deleteAddress
      policy r =
      ⟨400, "Invalid content type (expected \"application/json\")\n"⟩ := by
  simp [handleRequest, hact, hmethod, hbody, hct]

/-- C10 witness: a JSON media type with a charset parameter is
rejected. -/
theorem c10_content_type_exact_match_witness :
    handleRequest cDecode cParseFail cLinkByName cMutate cMutate []
      ⟨"/add", "POST", "application/json; charset=utf-8", some "{}"⟩ =
      ⟨400, "Invalid content type (expected \"application/json\")\n"⟩ :=
  c10_content_type_exact_match cDecode cParseFail cLinkByName cMutate cMutate
    [] ⟨"/add", "POST", "application/json; charset=utf-8", some "{}"⟩
    "add" "{}" rfl rfl rfl (by decide)

/-- C3: Add is idempotent — when the existence check reports the address
present, `AddAddress` succeeds without any mutation; consequently after
a successful `AddAddress` a second identical call returns success and
leaves the state exactly as the first call left it. -/
theorem c3_add_idempotent :
    (∀ (st : OSState) (l : Link) (a : CIDRAddress),
      AddressExists st l a = .ok true → AddAddress st l a = (st, .ok ())) ∧
    (∀ (st st1 : OSState) (l : Link) (a : CIDRAddress),
      AddAddress st l a = (st1, .ok ()) → AddAddress st1 l a = (st1, .ok ())) := by
  constructor
  · intro st l a h
    exact AddAddress_of_exists h
  · intro st st1 l a h
    exact AddAddress_of_exists (AddAddress_ok_exists h)

/-- C3 witness: a second add of the same address on the state produced
by a successful first add is a successful no-op. -/
theorem c3_add_idempotent_witness :
    AddAddress cState1 cLink cAddrV4 = (cState1, .ok ()) :=
  c3_add_idempotent.2 cState0 cState1 cLink cAddrV4 rfl

/-- C4: when the address is absent, the OS mutation succeeds and the
announcement fails with error `e`, `AddAddress` returns exactly that
announcement error and the new address binding is not rolled back: it
is still present on the link afterwards. -/
theorem c4_announcement_failure_keeps_address
    (st : OSState) (l : Link) (a : CIDRAddress) (e : String)
    (hex : AddressExists st l a = .ok false)
    (haf : st.addFails = false)
    (hadv : st.advertiseError = some e) :
    AddAddress st l a =
      ({ st with addrs := (l.index, a) :: st.addrs }, .error e) ∧
    AddressExists (AddAddress st l a).1 l a = .ok true := by
  have h1 := AddAddress_of_advFail hex haf hadv
  refine ⟨h1, ?_⟩
  rw [h1]
  exact AddressExists_cons_self st l a (listFails_of_AddressExists_ok hex)

/-- C4 witness: the theorem applied to a state whose raw-socket send
fails. -/
theorem c4_announcement_failure_keeps_address_witness :
    AddAddress cStateAdvFail cLink cAddrV4 =
      ({ cStateAdvFail with addrs := [(3, cAddrV4)] }, .error "sendto: network is down") ∧
    AddressExists (AddAddress cStateAdvFail cLink cAddrV4).1 cLink cAddrV4 =
      .ok true :=
  c4_announcement_failure_keeps_address cStateAdvFail cLink cAddrV4
    "sendto: network is down" rfl rfl rfl

/-- C8: Delete is idempotent — when the existence check reports the
address absent, `DeleteAddress` succeeds without touching the state;
when it is present and the OS removal works, `DeleteAddress` succeeds
and the address is no longer on the link. -/
theorem c8_delete_idempotent :
    (∀ (st : OSState) (l : Link) (a : CIDRAddress),
      AddressExists st l a = .ok false → DeleteAddress st l a = (st, .ok ())) ∧
    (∀ (st : OSState) (l : Link) (a : CIDRAddress),
      AddressExists st l a = .ok true → st.delFails = false →
        (DeleteAddress st l a).2 = .ok () ∧
        AddressExists (DeleteAddress st l a).1 l a = .ok false) := by
  constructor
  · intro st l a h
    exact DeleteAddress_of_absent h
  · intro st l a hex hdf
    rw [DeleteAddress_of_present hex hdf]
    exact ⟨rfl, AddressExists_after_del st l a (listFails_of_AddressExists_ok hex)⟩

/-- C8 witness: deleting from the empty state is a successful no-op. -/
theorem c8_delete_idempotent_witness :
    DeleteAddress cState0 cLink cAddrV4 = (cState0, .ok ()) :=
  c8_delete_idempotent.1 cState0 cLink cAddrV4 rfl

/-- C9: round-trip over the OS address state — after any successful
`AddAddress` the existence check reports the address present, and after
any successful `DeleteAddress` it reports the address absent. -/
theorem c9_round_trip :
    (∀ (st st1 : OSState) (l : Link) (a : CIDRAddress),
      AddAddress st l a = (st1, .ok ()) → AddressExists st1 l a = .ok true) ∧
    (∀ (st st1 : OSState) (l : Link) (a : CIDRAddress),
      DeleteAddress st l a = (st1, .ok ()) → AddressExists st1 l a = .ok false) :=
  ⟨fun _ _ _ _ h => AddAddress_ok_exists h,
   fun _ _ _ _ h => DeleteAddress_ok_not_exists h⟩

/-- C9 witness: the round trip on a concrete state, link and address. -/
theorem c9_round_trip_witness :
    AddressExists cState1 cLink cAddrV4 = .ok true :=
  c9_round_trip.1 cState0 cState1 cLink cAddrV4 rfl

/-- C5: for every link and IPv4 address (an address with a 4-byte form)
the announcement frame is an Ethernet frame from the link's hardware
address to the broadcast address with EtherType ARP, whose payload is an
ARP REQUEST with sender hardware address the link's MAC, target hardware
address broadcast, and sender and target protocol address both equal to
the new address. -/
theorem c5_gratuitous_arp_frame (link : Link) (address : CIDRAddress)
    (ip4 : List Nat) (h : ipTo4 address.ip = some ip4) :
    AdvertiseAddressFrame link address =
      .arp ⟨link.mac, broadcastMAC, 0x0806⟩
        ⟨1, 0x0800, 6, 4, 1, link.mac, ip4, broadcastMAC, ip4⟩ ∧
    ipEqual ip4 address.ip = true := by
  constructor
  · simp [AdvertiseAddressFrame, h]
  · exact ipEqual_of_ipTo4 h

/-- C5 witness: the ARP frame built for 10.0.0.5/24 on a concrete
link. -/
theorem c5_gratuitous_arp_frame_witness :
    AdvertiseAddressFrame cLink cAddrV4 =
      .arp ⟨cLink.mac, broadcastMAC, 0x0806⟩
        ⟨1, 0x0800, 6, 4, 1, cLink.mac, [10, 0, 0, 5], broadcastMAC,
          [10, 0, 0, 5]⟩ ∧
    ipEqual [10, 0, 0, 5] cAddrV4.ip = true :=
  c5_gratuitous_arp_frame cLink cAddrV4 [10, 0, 0, 5] rfl

/-- C6: for every link and IPv6 address (no 4-byte form) the
announcement frame carries an IPv6 header with source the new address,
destination the link-local all-nodes multicast address, hop limit 255
and next header ICMPv6, and an ICMPv6 (type 136) Neighbor Advertisement
with the override flag set, target address the new address, and exactly
one target-link-layer-address option (type 2) whose data is the link's
hardware address. -/
theorem c6_neighbor_advertisement_frame (link : Link)
    (address : CIDRAddress) (h : ipTo4 address.ip = none) :
    AdvertiseAddressFrame link address =
      .ndp ⟨link.mac, allNodesMAC, 0x86dd⟩
        ⟨6, address.ip, ipv6AllNodes, 58, 255⟩ 136 0
        ⟨0x20, address.ip, [⟨2, link.mac⟩]⟩ := by
  simp [AdvertiseAddressFrame, h]

/-- C6 witness: the NA frame built for a concrete IPv6 address. -/
theorem c6_neighbor_advertisement_frame_witness :
    AdvertiseAddressFrame cLink cAddrV6 =
      .ndp ⟨cLink.mac, allNodesMAC, 0x86dd⟩
        ⟨6, cAddrV6.ip, ipv6AllNodes, 58, 255⟩ 136 0
        ⟨0x20, cAddrV6.ip, [⟨2, cLink.mac⟩]⟩ :=
  c6_neighbor_advertisement_frame cLink cAddrV6 rfl

/-- C1 counterexample: with the single policy ⟨10.0.0.0/24, pattern
"lo"⟩ and the request ⟨interface "flop", address 10.0.0.5/24⟩, the
implemented policy check succeeds although no policy's pattern fully
matches the interface name ("lo" only occurs inside "flop"), so the
claimed equivalence with full-string matching is false at this input. -/
theorem c1_full_match_counterexample :
    policyCheck [cPolicyLo] "flop" cAddrV4 = true ∧
    ([cPolicyLo].any fun p => p.AllowsFullMatchSpec "flop" cAddrV4) = false := by
  exact ⟨by decide, by decide⟩

/-- C1 (amended): the policy check succeeds iff some policy p satisfies
all three of: p's interface-name pattern matches somewhere inside the
interface name (Go `MatchString` substring semantics, not whole-string
matching), p's network mask textually equals the request address's mask
(same prefix length in the same address family), and p's network IP
masked with its own mask equals the request IP masked with that same
mask; in particular a /64 policy never matches a /48 request over the
same network bits. -/
theorem c1_policy_check_iff :
    (∀ (policy : List AddressPolicy) (interfaceName : String)
      (address : CIDRAddress),
      policyCheck policy interfaceName address = true ↔
        ∃ p ∈ policy,
          p.interfaceNameRegex.matchSub interfaceName = true ∧
          maskString p.ipNetwork.mask = maskString address.mask ∧
          ipEqual (ipMask p.ipNetwork.ip p.ipNetwork.mask)
            (ipMask address.ip address.mask) = true) ∧
    (∀ (p : AddressPolicy) (interfaceName : String) (address : CIDRAddress),
      p.ipNetwork.mask = cidrMask 64 128 → address.mask = cidrMask 48 128 →
      p.Allows interfaceName address = false) := by
  constructor
  · intro policy interfaceName address
    simp [policyCheck, AddressPolicy.Allows, List.any_eq_true,
      Bool.and_eq_true, beq_iff_eq, and_assoc]
  · intro p interfaceName address h64 h48
    have hne : (maskString (cidrMask 64 128) == maskString (cidrMask 48 128)) =
        false := by decide
    simp [AddressPolicy.Allows, h64, h48, hne]

/-- C1 witness: a /64 policy does not match a /48 request over the same
network bytes. -/
theorem c1_policy_check_iff_witness :
    cPolicy64.Allows "eth0" cAddr48 = false :=
  c1_policy_check_iff.2 cPolicy64 "eth0" cAddr48 rfl rfl

end IpamApi
